import Mathlib

/- Shallow embedding of the chatvc moderation server: the shared data model
   (shared/schema.ts), the storage layer (server/storage.ts, GitHubStorage of
   the github-storage variant), and the WebSocket protocol handlers
   (server/routes.ts).  Persistence calls (saveStorage / scheduleSave) only
   perform external I/O and never change the in-memory state, so they are
   omitted; every other step of each operation is translated line by line. -/

namespace ChatVC

/-- JS string lowercasing (`text.toLowerCase()`), per character. -/
def jsToLowerCase (s : String) : String := String.mk (s.data.map Char.toLower)

/-- Character-list version of "needle is an initial segment of hay". -/
def startsWithList : List Char → List Char → Bool
  | [], _ => true
  | _ :: _, [] => false
  | a :: as, b :: bs => a == b && startsWithList as bs

/-- Character-list version of substring containment (needle occurs in hay). -/
def containsSubList (needle : List Char) : List Char → Bool
  | [] => startsWithList needle []
  | c :: rest => startsWithList needle (c :: rest) || containsSubList needle rest

/-- JS `hay.includes(needle)` on strings. -/
def jsIncludes (hay needle : String) : Bool := containsSubList needle.data hay.data

/-- JS `text.trim()`: strip leading and trailing whitespace (modelled
structurally so it computes by kernel reduction). -/
def jsTrim (s : String) : String :=
  String.mk (((s.data.dropWhile Char.isWhitespace).reverse.dropWhile
    Char.isWhitespace).reverse)

/-- JS truthiness of an optional string field of a WebSocket client:
`undefined` and the empty string are falsy. -/
def jsStrFalsy : Option String → Bool
  | none => true
  | some s => s == ""

/-- `Message.status` from shared/schema.ts. -/
inductive MsgStatus
  | pending
  | approved
  | rejected
deriving DecidableEq, Repr

/-- `Message.type` from shared/schema.ts (a closed union). -/
inductive MsgType
  | normal
  | event
  | flash
deriving DecidableEq, Repr

/-- `Message` from shared/schema.ts.  Timestamps are JS epoch-milliseconds,
modelled as `Int`; the optional fields stay optional (`undefined` = `none`). -/
structure Message where
  id : String
  userId : String
  username : String
  role : String
  content : String
  timestamp : Int
  status : MsgStatus
  type : MsgType
  forcePublished : Option Bool := none
  flashDuration : Option Int := none
deriving DecidableEq, Repr

/-- JS truthiness of the optional `forcePublished` field. -/
def Message.isForced (m : Message) : Bool := m.forcePublished.getD false

/-- `User` from shared/schema.ts (role kept as the raw string the runtime
actually compares). -/
structure User where
  id : String
  username : String
  role : String
  isOnline : Bool
  isMuted : Bool
  mutedUntil : Option Int := none
  isHidden : Bool
deriving DecidableEq, Repr

/-- `ChatConfig` from shared/schema.ts, with the `directChatEnabled` field the
github-storage variant adds (default `false`). -/
structure ChatConfig where
  enabled : Bool
  cooldown : Int
  timerEndTime : Option Int := none
  simulationMode : Bool
  directChatEnabled : Bool := false
deriving DecidableEq, Repr

/-- `MutedUser` from shared/schema.ts. -/
structure MutedUser where
  username : String
  mutedUntil : Int
deriving DecidableEq, Repr

/-- `BlockedWord` from shared/schema.ts. -/
structure BlockedWord where
  word : String
  addedAt : Int
deriving DecidableEq, Repr

/-- The in-memory state of `GitHubStorage`.  The JS `Map`s are modelled as
association lists in insertion order: `users` is keyed by `User.id`,
`mutedUsers` by `MutedUser.username`, `blockedWords` by `BlockedWord.word`,
and `typingUsers` maps a username to its last-typing timestamp. -/
structure Storage where
  users : List User
  messages : List Message
  config : ChatConfig
  mutedUsers : List MutedUser
  blockedWords : List BlockedWord
  typingUsers : List (String × Int)
deriving DecidableEq, Repr

/-- `Map.set` on a list keyed by `key`: replace in place if present, else
append (JS `Map` keeps insertion order and updates in place). -/
def mapSet {α : Type} (key : α → String) (l : List α) (v : α) : List α :=
  if l.any (fun x => key x == key v) then
    l.map (fun x => if key x == key v then v else x)
  else
    l ++ [v]

/-- `storage.getUserById(id)`. -/
def getUserById (st : Storage) (id : String) : Option User :=
  (st.users.find? (fun u => u.id == id))

/-- `storage.getUserByUsername(username)`. -/
def getUserByUsername (st : Storage) (username : String) : Option User :=
  st.users.find? (fun u => u.username == username)

/-- `storage.addUser(user)` (`Map.set` keyed by id). -/
def addUser (st : Storage) (u : User) : Storage :=
  { st with users := mapSet User.id st.users u }

/-- `storage.removeUser(userId)`. -/
def removeUser (st : Storage) (userId : String) : Storage :=
  { st with users := st.users.filter (fun u => !(u.id == userId)) }

/-- The `Partial<User>` patches `updateUser` is actually called with
(mute state and hidden flag).  `none` = key absent from the patch object. -/
structure UserPatch where
  isMuted : Option Bool := none
  mutedUntil : Option (Option Int) := none
  isHidden : Option Bool := none
deriving DecidableEq, Repr

/-- JS object spread `{ ...user, ...updates }` for a `UserPatch`. -/
def applyUserPatch (u : User) (p : UserPatch) : User :=
  { u with
    isMuted := p.isMuted.getD u.isMuted
    mutedUntil := p.mutedUntil.getD u.mutedUntil
    isHidden := p.isHidden.getD u.isHidden }

/-- `storage.updateUser(userId, updates)`: patch in place when present. -/
def updateUser (st : Storage) (userId : String) (p : UserPatch) : Storage :=
  match st.users.find? (fun u => u.id == userId) with
  | none => st
  | some u => { st with users := mapSet User.id st.users (applyUserPatch u p) }

/-- `storage.addMessage(message)`: append (content is never validated here). -/
def addMessage (st : Storage) (m : Message) : Storage :=
  { st with messages := st.messages ++ [m] }

/-- `storage.getPendingMessages()`: `status === "pending" && type === "normal"`,
in insertion order. -/
def getPendingMessages (st : Storage) : List Message :=
  st.messages.filter (fun m => m.status == .pending && m.type == .normal)

/-- `storage.getApprovedMessages()` of the github-storage variant:
`status === "approved" || type === "event" || type === "flash" || forcePublished`. -/
def getApprovedMessages (st : Storage) : List Message :=
  st.messages.filter
    (fun m => m.status == .approved || m.type == .event || m.type == .flash || m.isForced)

/-- `storage.getApprovedMessages()` of the server/storage.ts variant:
`status === "approved" || type !== "normal" || forcePublished`. -/
def getApprovedMessagesAlt (st : Storage) : List Message :=
  st.messages.filter
    (fun m => m.status == .approved || !(m.type == .normal) || m.isForced)

/-- The `Partial<Message>` patches `updateMessage` is actually called with
(approve and force-publish). -/
structure MessagePatch where
  status : Option MsgStatus := none
  forcePublished : Option Bool := none
deriving DecidableEq, Repr

/-- JS object spread `{ ...message, ...updates }` for a `MessagePatch`. -/
def applyMessagePatch (m : Message) (p : MessagePatch) : Message :=
  { m with
    status := p.status.getD m.status
    forcePublished := match p.forcePublished with
      | some b => some b
      | none => m.forcePublished }

/-- `storage.updateMessage(messageId, updates)`: patch in place if the id is
found, otherwise leave the list untouched. -/
def updateMessage (st : Storage) (messageId : String) (p : MessagePatch) : Storage :=
  match st.messages.findIdx? (fun m => m.id == messageId) with
  | none => st
  | some _ =>
      let patched := st.messages.map
        (fun m => if m.id == messageId then applyMessagePatch m p else m)
      { st with messages := patched }

/-- `storage.deleteMessage(messageId)`: filter the id out. -/
def deleteMessage (st : Storage) (messageId : String) : Storage :=
  { st with messages := st.messages.filter (fun m => !(m.id == messageId)) }

/-- `storage.clearMessages()`. -/
def clearMessages (st : Storage) : Storage :=
  { st with messages := [] }

/-- The `Partial<ChatConfig>` patch for `updateConfig`; `timerEndTime` can be
present-and-undefined (`some none`), which JS spread uses to clear the field. -/
structure ConfigPatch where
  enabled : Option Bool := none
  cooldown : Option Int := none
  timerEndTime : Option (Option Int) := none
  simulationMode : Option Bool := none
  directChatEnabled : Option Bool := none
deriving DecidableEq, Repr

/-- JS object spread `{ ...config, ...updates }` for a `ConfigPatch`. -/
def applyConfigPatch (c : ChatConfig) (p : ConfigPatch) : ChatConfig :=
  { enabled := p.enabled.getD c.enabled
    cooldown := p.cooldown.getD c.cooldown
    timerEndTime := p.timerEndTime.getD c.timerEndTime
    simulationMode := p.simulationMode.getD c.simulationMode
    directChatEnabled := p.directChatEnabled.getD c.directChatEnabled }

/-- `storage.updateConfig(updates)`: merge only provided keys. -/
def updateConfig (st : Storage) (p : ConfigPatch) : Storage :=
  { st with config := applyConfigPatch st.config p }

/-- `storage.removeMutedUser(username)`: delete the mute record and, when the
user is currently connected, clear the mute flags on the live `User`. -/
def removeMutedUser (st : Storage) (username : String) : Storage :=
  let st1 := { st with
    mutedUsers := st.mutedUsers.filter (fun mu => !(mu.username == username)) }
  match getUserByUsername st1 username with
  | none => st1
  | some u => updateUser st1 u.id { isMuted := some false, mutedUntil := some none }

/-- `storage.addMutedUser(mutedUser)`: `Map.set` plus live-user update. -/
def addMutedUser (st : Storage) (mu : MutedUser) : Storage :=
  let st1 := { st with mutedUsers := mapSet MutedUser.username st.mutedUsers mu }
  match getUserByUsername st1 mu.username with
  | none => st1
  | some u =>
      updateUser st1 u.id { isMuted := some true, mutedUntil := some (some mu.mutedUntil) }

/-- `storage.getMutedUsers()`: returns the records with `mutedUntil > now` and
deletes (via `removeMutedUser`) every record with `mutedUntil <= now`. -/
def getMutedUsers (st : Storage) (now : Int) : List MutedUser × Storage :=
  let active := st.mutedUsers.filter (fun mu => now < mu.mutedUntil)
  let expired := st.mutedUsers.filter (fun mu => mu.mutedUntil ≤ now)
  let st1 := expired.foldl (fun s mu => removeMutedUser s mu.username) st
  (active, st1)

/-- `storage.isUserMuted(username)`: lazily evicts an expired record for this
username before answering. -/
def isUserMuted (st : Storage) (username : String) (now : Int) : Bool × Storage :=
  match st.mutedUsers.find? (fun mu => mu.username == username) with
  | none => (false, st)
  | some mu =>
      if mu.mutedUntil ≤ now then (false, removeMutedUser st username)
      else (true, st)

/-- `storage.addBlockedWord(word)`: normalize to lowercase, `Map.set`. -/
def addBlockedWord (st : Storage) (word : String) (now : Int) : Storage :=
  { st with blockedWords :=
      mapSet BlockedWord.word st.blockedWords { word := jsToLowerCase word, addedAt := now } }

/-- `storage.removeBlockedWord(word)`: normalize to lowercase, delete. -/
def removeBlockedWord (st : Storage) (word : String) : Storage :=
  { st with blockedWords :=
      st.blockedWords.filter (fun bw => !(bw.word == jsToLowerCase word)) }

/-- `storage.containsBlockedWord(text)`: lowercase the text and test each
stored key for substring containment (`Array.some`, so it short-circuits and
an empty set yields `false`). -/
def containsBlockedWord (st : Storage) (text : String) : Bool :=
  st.blockedWords.any (fun bw => jsIncludes (jsToLowerCase text) bw.word)

/-- `storage.setUserTyping(username)`. -/
def setUserTyping (st : Storage) (username : String) (now : Int) : Storage :=
  { st with typingUsers := mapSet Prod.fst st.typingUsers (username, now) }

/-- `storage.removeUserTyping(username)`. -/
def removeUserTyping (st : Storage) (username : String) : Storage :=
  { st with typingUsers := st.typingUsers.filter (fun p => !(p.1 == username)) }

/-- `storage.getTypingUsers()`: keep entries younger than 5 seconds, evict the
rest. -/
def getTypingUsers (st : Storage) (now : Int) : List String × Storage :=
  let active := (st.typingUsers.filter (fun p => now - p.2 < 5000)).map Prod.fst
  let st1 := { st with typingUsers := st.typingUsers.filter (fun p => now - p.2 < 5000) }
  (active, st1)

/-- The static credential table `CREDENTIALS` from server/routes.ts
(handle mapped to its secret). -/
def CREDENTIALS : List (String × String) := [
  ("ad", "adbk"),
  ("shainez", "WVFw*\x7b~a<;A*\x7d3>&4yR~caoa#hrbr|z=E?M4`z$7,bZC2r+r>dAt-GU]C_o3)kXQSEE`9>o|e[D8qgxPy^C~QW-vQSt#PT$%[=\x7dO8N(EzuI5E(V%>OwT\x7d.LLmV\x7dmu^+&@SXz<|P?A2([1m\x7bu`982^qSLtf!Q]\x7d`8ev;VM^D/lYOHm/%/6=JXY0Z,kU<md&^JQ~!@Rt`CHxyU?(,43KaJ7G#w4wI?Uociv>Dy@<z]%y@]up.G_\x7b~|VZoZurAj0eUS"),
  ("pronBOT", "Ballon:)2008")]

/-- The guard `if (!CREDENTIALS[username])` of handleAuth: the lookup is
truthy exactly when the handle is present with a non-empty secret. -/
def credentialOk (username : String) : Bool :=
  match CREDENTIALS.find? (fun p => p.1 == username) with
  | none => false
  | some p => !(p.2 == "")

/-- One `WebSocketClient`: the per-socket fields routes.ts attaches
(`userId`, `username`, `role`, set at auth time) plus an open flag standing
for `readyState === WebSocket.OPEN`. -/
structure Conn where
  cid : Nat
  userId : Option String := none
  username : Option String := none
  role : Option String := none
  isOpen : Bool := true
deriving DecidableEq, Repr

/-- The server-to-client event envelopes routes.ts emits. -/
inductive SEvent
  | error (msg : String)
  | initialState (messages : List Message) (users : List User) (config : ChatConfig)
      (mutedUsers : List MutedUser) (blockedWords : List BlockedWord)
      (pendingMessages : List Message)
  | message (m : Message)
  | pendingMessage (m : Message)
  | flashMessage (m : Message)
  | messageApproved (messageId : String)
  | messageRejected (messageId : String)
  | messageDeleted (messageId : String)
  | usersUpdate (users : List User)
  | typingUpdate (users : List String)
  | configUpdate (config : ChatConfig)
  | mutedUsersUpdate (mutedUsers : List MutedUser)
  | blockedWordsUpdate (blockedWords : List BlockedWord)
  | messagesCleared
  | animationTrigger (animationType : String)
deriving DecidableEq, Repr

/-- One outbound transmission: an event delivered to the socket `dest`. -/
structure Send where
  dest : Nat
  event : SEvent
deriving DecidableEq, Repr

/-- `broadcast(wss, data)`: send to every client with `readyState === OPEN`. -/
def broadcastSends (clients : List Conn) (e : SEvent) : List Send :=
  (clients.filter (fun c => c.isOpen)).map (fun c => { dest := c.cid, event := e })

/-- `broadcastUsers(wss)`. -/
def broadcastUsers (st : Storage) (clients : List Conn) : List Send :=
  broadcastSends clients (.usersUpdate st.users)

/-- `broadcastTypingUsers(wss)`: reads (and lazily cleans) the typing list,
then broadcasts it. -/
def broadcastTypingUsers (st : Storage) (clients : List Conn) (now : Int) :
    Storage × List Send :=
  let r := getTypingUsers st now
  (r.2, broadcastSends clients (.typingUpdate r.1))

/-- `handleAuth` from server/routes.ts: reverify the handle against
`CREDENTIALS`, stamp the connection with a fresh id and the *declared* role,
register the `User` (mute/hidden state pulled from existing records), unicast
the full initial state (pending queue only for the admin role), and broadcast
the user list.  `newId` stands for the fresh `randomUUID()`. -/
def handleAuth (ws : Conn) (username role : String) (now : Int) (newId : String)
    (st : Storage) (clients : List Conn) : Conn × Storage × List Send :=
  if !(credentialOk username) then
    (ws, st, [{ dest := ws.cid, event := .error "Nom d'utilisateur invalide" }])
  else
    let ws1 := { ws with userId := some newId, username := some username, role := some role }
    let rMut := isUserMuted st username now
    let rList := getMutedUsers rMut.2 now
    let user : User := {
      id := newId
      username := username
      role := role
      isOnline := true
      isMuted := rMut.1
      mutedUntil := (rList.1.find? (fun mu => mu.username == username)).map MutedUser.mutedUntil
      isHidden := ((getUserByUsername rList.2 username).map User.isHidden).getD false }
    let st3 := addUser rList.2 user
    let msgsSnap := getApprovedMessages st3
    let usersSnap := st3.users
    let cfgSnap := st3.config
    let rList2 := getMutedUsers st3 now
    let st4 := rList2.2
    let initEvt := SEvent.initialState msgsSnap usersSnap cfgSnap rList2.1 st4.blockedWords
      (if role == "pronBOT" then getPendingMessages st4 else [])
    (ws1, st4, { dest := ws.cid, event := initEvt } :: broadcastUsers st4 clients)

/-- `handleSendMessage` from server/routes.ts (github-storage variant, the one
with `directChatEnabled`): validation cascade, then auto-approve for the admin
role or direct mode, else the pending path.  `newId` stands for the fresh
`randomUUID()`. -/
def handleSendMessage (ws : Conn) (content : String) (now : Int) (newId : String)
    (st : Storage) (clients : List Conn) : Storage × List Send :=
  if jsStrFalsy ws.username || jsStrFalsy ws.userId then (st, [])
  else if content == "" || (jsTrim content).length == 0 then (st, [])
  else if content.length > 1000 then (st, [])
  else if !st.config.enabled && !(ws.role == some "pronBOT") then
    (st, [{ dest := ws.cid, event := .error "Le chat est désactivé" }])
  else
    let rMut := isUserMuted st (ws.username.getD "") now
    if rMut.1 then
      (rMut.2, [{ dest := ws.cid, event := .error "Vous êtes en sourdine" }])
    else if containsBlockedWord rMut.2 content then
      (rMut.2, [{ dest := ws.cid, event := .error "Le message contient des mots bloqués" }])
    else
      let config := rMut.2.config
      let autoApprove := ws.role == some "pronBOT" || config.directChatEnabled
      let newMessage : Message := {
        id := newId
        userId := ws.userId.getD ""
        username := ws.username.getD ""
        role := ws.role.getD ""
        content := jsTrim content
        timestamp := now
        status := if autoApprove then .approved else .pending
        type := .normal }
      let st2 := addMessage rMut.2 newMessage
      let msgSends :=
        if autoApprove then broadcastSends clients (.message newMessage)
        else { dest := ws.cid, event := SEvent.pendingMessage newMessage } ::
          ((clients.filter (fun c => c.isOpen && c.role == some "pronBOT")).map
            (fun c => { dest := c.cid, event := SEvent.pendingMessage newMessage }))
      let st3 := removeUserTyping st2 (ws.username.getD "")
      let rTyp := broadcastTypingUsers st3 clients now
      (rTyp.1, msgSends ++ rTyp.2)

/-- Body of `handleApproveMessage` after its admin guard: flip the message to
approved, then broadcast it (plus the approval notice) if it exists. -/
def approveBody (messageId : String) (st : Storage) (clients : List Conn) :
    Storage × List Send :=
  let st1 := updateMessage st messageId { status := some .approved }
  match st1.messages.find? (fun m => m.id == messageId) with
  | some msg =>
      (st1, broadcastSends clients (.message msg) ++
        broadcastSends clients (.messageApproved messageId))
  | none => (st1, [])

/-- `handleApproveMessage`: non-admin calls are silently ignored. -/
def handleApproveMessage (ws : Conn) (messageId : String) (st : Storage)
    (clients : List Conn) : Storage × List Send :=
  if !(ws.role == some "pronBOT") then (st, []) else approveBody messageId st clients

/-- Body of `handleRejectMessage` after its admin guard: delete outright and
broadcast the rejection by id. -/
def rejectBody (messageId : String) (st : Storage) (clients : List Conn) :
    Storage × List Send :=
  (deleteMessage st messageId, broadcastSends clients (.messageRejected messageId))

/-- `handleRejectMessage`: non-admin calls are silently ignored. -/
def handleRejectMessage (ws : Conn) (messageId : String) (st : Storage)
    (clients : List Conn) : Storage × List Send :=
  if !(ws.role == some "pronBOT") then (st, []) else rejectBody messageId st clients

/-- The inbound `update_config` payload: each key of `message.config` the
handler inspects may be absent (`none`). -/
structure ConfigReq where
  timerMinutes : Option Int := none
  enabled : Option Bool := none
  cooldown : Option Int := none
  simulationMode : Option Bool := none
  directChatEnabled : Option Bool := none
deriving DecidableEq, Repr

/-- Body of `handleUpdateConfig` after its admin guard (github-storage
variant): build the patch field by field; `timerMinutes > 0` becomes the
absolute deadline `now + minutes * 60000`, `timerMinutes <= 0` clears the
timer; then merge and broadcast the new config. -/
def updateConfigBody (req : ConfigReq) (now : Int) (st : Storage)
    (clients : List Conn) : Storage × List Send :=
  let patch : ConfigPatch := {
    timerEndTime := match req.timerMinutes with
      | some k => some (if 0 < k then some (now + k * 60000) else none)
      | none => none
    enabled := req.enabled
    cooldown := req.cooldown
    simulationMode := req.simulationMode
    directChatEnabled := req.directChatEnabled }
  let st1 := updateConfig st patch
  (st1, broadcastSends clients (.configUpdate st1.config))

/-- `handleUpdateConfig`: non-admin calls are silently ignored. -/
def handleUpdateConfig (ws : Conn) (req : ConfigReq) (now : Int) (st : Storage)
    (clients : List Conn) : Storage × List Send :=
  if !(ws.role == some "pronBOT") then (st, []) else updateConfigBody req now st clients

/-- Body of `handleMuteUser` after its admin guard: absolute expiry
`now + duration * 60000`, then broadcast the (lazily cleaned) mute list and
the user list. -/
def muteBody (username : String) (duration : Int) (now : Int) (st : Storage)
    (clients : List Conn) : Storage × List Send :=
  let st1 := addMutedUser st { username := username, mutedUntil := now + duration * 60000 }
  let r := getMutedUsers st1 now
  (r.2, broadcastSends clients (.mutedUsersUpdate r.1) ++ broadcastUsers r.2 clients)

/-- `handleMuteUser`: non-admin calls are silently ignored. -/
def handleMuteUser (ws : Conn) (username : String) (duration : Int) (now : Int)
    (st : Storage) (clients : List Conn) : Storage × List Send :=
  if !(ws.role == some "pronBOT") then (st, []) else muteBody username duration now st clients

/-- The firing condition of the closure-timer interval: JS
`config.timerEndTime && Date.now() >= config.timerEndTime`, where a stored
deadline of `0` is falsy. -/
def timerFires (cfg : ChatConfig) (now : Int) : Bool :=
  match cfg.timerEndTime with
  | some t => !(t == 0) && decide (t ≤ now)
  | none => false

/-- One iteration of the 1-second closure-timer interval registered in
`registerRoutes`: when the deadline is set and reached, disable the chat,
clear the deadline, append one system message, and broadcast the message and
the new config.  `newId` stands for the fresh `randomUUID()`. -/
def timerTick (now : Int) (newId : String) (st : Storage) (clients : List Conn) :
    Storage × List Send :=
  if timerFires st.config now then
    let st1 := updateConfig st { enabled := some false, timerEndTime := some none }
    let systemMessage : Message := {
      id := newId
      userId := "system"
      username := "Système"
      role := "pronBOT"
      content := "⏰ Le chat est fermé, fin du timer."
      timestamp := now
      status := .approved
      type := .event }
    let st2 := addMessage st1 systemMessage
    (st2, broadcastSends clients (.message systemMessage) ++
      broadcastSends clients (.configUpdate st2.config))
  else (st, [])

/-- The `ChatConfig` the storage constructor starts from. -/
def defaultConfig : ChatConfig :=
  { enabled := true, cooldown := 0, simulationMode := false }

/-- The empty in-memory state the storage constructor starts from. -/
def emptyStorage : Storage :=
  { users := [], messages := [], config := defaultConfig, mutedUsers := [],
    blockedWords := [], typingUsers := [] }

/-- A connection authenticated with the regular handle `ad` and declared role
`ad` (not the admin role). -/
def wsUser : Conn :=
  { cid := 1, userId := some "u1", username := some "ad", role := some "ad" }

/-- A connection authenticated with the admin role `pronBOT`. -/
def wsAdmin : Conn :=
  { cid := 0, userId := some "u0", username := some "pronBOT", role := some "pronBOT" }

/-- A stored event-type message that is neither approved nor force-published. -/
def msgEventPending : Message :=
  { id := "e1", userId := "u1", username := "ad", role := "ad", content := "hello",
    timestamp := 0, status := .pending, type := .event }

/-- Storage holding only `msgEventPending`. -/
def stEvent : Storage := { emptyStorage with messages := [msgEventPending] }

/-- Storage holding one normal pending message with id `m1`. -/
def stPend : Storage :=
  { emptyStorage with messages := [
      { id := "m1", userId := "u1", username := "ad", role := "ad", content := "hi",
        timestamp := 0, status := .pending, type := .normal }] }

/-- Storage with the chat disabled. -/
def stOff : Storage := { emptyStorage with config := { defaultConfig with enabled := false } }

/-- Storage with direct-chat mode enabled. -/
def stDirect : Storage :=
  { emptyStorage with config := { defaultConfig with directChatEnabled := true } }

/-- Storage whose blocked-word set is `{"spam"}`. -/
def stSpam : Storage :=
  { emptyStorage with blockedWords := [{ word := "spam", addedAt := 0 }] }

/-- Storage whose blocked-word set is `{"a"}`. -/
def stWordA : Storage :=
  { emptyStorage with blockedWords := [{ word := "a", addedAt := 0 }] }

/-- A 1001-character content (over the 1000-character limit). -/
def longContent : String := String.mk (List.replicate 1001 'a')

/-- Storage with the chat already disabled but the closure timer still set to
a deadline in the past (5 ms). -/
def stTimer : Storage :=
  { emptyStorage with config :=
      { defaultConfig with enabled := false, timerEndTime := some 5 } }

/-- Storage with the closure timer set (enabled still true). -/
def stTimerOn : Storage :=
  { emptyStorage with config := { defaultConfig with timerEndTime := some 5 } }

/-- Storage with two mute records that are both already expired at time 5. -/
def stTwoMutes : Storage :=
  { emptyStorage with mutedUsers := [
      { username := "ad", mutedUntil := 1 },
      { username := "shainez", mutedUntil := 1 }] }

/- Projection lemmas: which storage fields each mutator leaves untouched. -/

theorem updateUser_proj (st : Storage) (uid : String) (p : UserPatch) :
    (updateUser st uid p).messages = st.messages
    ∧ (updateUser st uid p).config = st.config
    ∧ (updateUser st uid p).mutedUsers = st.mutedUsers
    ∧ (updateUser st uid p).blockedWords = st.blockedWords
    ∧ (updateUser st uid p).typingUsers = st.typingUsers := by
  unfold updateUser
  cases st.users.find? (fun u => u.id == uid) <;> simp

theorem removeMutedUser_proj (st : Storage) (u : String) :
    (removeMutedUser st u).messages = st.messages
    ∧ (removeMutedUser st u).config = st.config
    ∧ (removeMutedUser st u).blockedWords = st.blockedWords
    ∧ (removeMutedUser st u).typingUsers = st.typingUsers := by
  simp only [removeMutedUser]
  split <;> simp [updateUser_proj]

theorem removeMutedUser_mutedUsers (st : Storage) (u : String) :
    (removeMutedUser st u).mutedUsers
      = st.mutedUsers.filter (fun mu => !(mu.username == u)) := by
  simp only [removeMutedUser]
  split <;> simp [updateUser_proj]

theorem isUserMuted_proj (st : Storage) (u : String) (now : Int) :
    (isUserMuted st u now).2.messages = st.messages
    ∧ (isUserMuted st u now).2.config = st.config
    ∧ (isUserMuted st u now).2.blockedWords = st.blockedWords
    ∧ (isUserMuted st u now).2.typingUsers = st.typingUsers := by
  unfold isUserMuted
  cases st.mutedUsers.find? (fun mu => mu.username == u) with
  | none => simp
  | some mu =>
      by_cases hmu : mu.mutedUntil ≤ now <;> simp [hmu, removeMutedUser_proj]

theorem containsBlockedWord_ext (st st' : Storage) (c : String)
    (h : st.blockedWords = st'.blockedWords) :
    containsBlockedWord st c = containsBlockedWord st' c := by
  simp [containsBlockedWord, h]

/-- C1. Every message in the store whose type is not "normal" is in the result
of getApprovedMessages(), regardless of its status and forcePublished flag —
for both source variants of the filter. -/
theorem nonNormal_always_in_approved (st : Storage) (m : Message)
    (hm : m ∈ st.messages) (ht : m.type ≠ MsgType.normal) :
    m ∈ getApprovedMessages st ∧ m ∈ getApprovedMessagesAlt st := by
  constructor
  · refine List.mem_filter.mpr ⟨hm, ?_⟩
    cases h : m.type with
    | normal => exact absurd h ht
    | event => simp [h]
    | flash => simp [h]
  · refine List.mem_filter.mpr ⟨hm, ?_⟩
    cases h : m.type with
    | normal => exact absurd h ht
    | event => simp [h]
    | flash => simp [h]

/-- Witness for C1 at a concrete pending, non-force-published event message. -/
theorem nonNormal_always_in_approved_witness :
    msgEventPending ∈ stEvent.messages ∧ msgEventPending.type ≠ MsgType.normal
    ∧ (msgEventPending ∈ getApprovedMessages stEvent
        ∧ msgEventPending ∈ getApprovedMessagesAlt stEvent) :=
  ⟨by decide, by decide,
    nonNormal_always_in_approved stEvent msgEventPending (by decide) (by decide)⟩

/-- C10. Rejecting a message twice is safe: the first call deletes it, the
second call leaves the message list unchanged (deleteMessage on an absent id
is a no-op) and emits no error event. -/
theorem reject_twice_noop (ws : Conn) (mid : String) (st : Storage)
    (cls : List Conn) (h : ws.role = some "pronBOT") :
    (handleRejectMessage ws mid st cls).1.messages
      = st.messages.filter (fun m => !(m.id == mid))
    ∧ (handleRejectMessage ws mid (handleRejectMessage ws mid st cls).1 cls).1.messages
      = (handleRejectMessage ws mid st cls).1.messages
    ∧ (∀ s ∈ (handleRejectMessage ws mid (handleRejectMessage ws mid st cls).1 cls).2,
        ∀ em, s.event ≠ SEvent.error em) := by
  refine ⟨?_, ?_, ?_⟩
  · simp [handleRejectMessage, h, rejectBody, deleteMessage]
  · simp [handleRejectMessage, h, rejectBody, deleteMessage, List.filter_filter]
  · intro s hs em
    simp [handleRejectMessage, h, rejectBody, broadcastSends, List.mem_map] at hs
    obtain ⟨c, _, rfl⟩ := hs
    simp

/-- Witness for C10 on a store holding one pending message `m1`. -/
theorem reject_twice_noop_witness :
    wsAdmin.role = some "pronBOT"
    ∧ ((handleRejectMessage wsAdmin "m1" stPend []).1.messages
        = stPend.messages.filter (fun m => !(m.id == "m1"))
      ∧ (handleRejectMessage wsAdmin "m1"
            (handleRejectMessage wsAdmin "m1" stPend []).1 []).1.messages
        = (handleRejectMessage wsAdmin "m1" stPend []).1.messages
      ∧ (∀ s ∈ (handleRejectMessage wsAdmin "m1"
            (handleRejectMessage wsAdmin "m1" stPend []).1 []).2,
          ∀ em, s.event ≠ SEvent.error em)) :=
  ⟨by decide, reject_twice_noop wsAdmin "m1" stPend [] (by decide)⟩

/-- C7. An admin update_config carrying timerMinutes = k > 0 at time `now`
stores the absolute deadline `now + k * 60000` (never the raw minute count),
and timerMinutes = 0 clears the timer field. -/
theorem updateConfig_timer_absolute (ws : Conn) (req : ConfigReq) (now : Int)
    (st : Storage) (cls : List Conn) (k : Int)
    (h : ws.role = some "pronBOT") (hnow : 0 ≤ now) :
    (req.timerMinutes = some k → 0 < k →
      (handleUpdateConfig ws req now st cls).1.config.timerEndTime
          = some (now + k * 60000)
      ∧ (handleUpdateConfig ws req now st cls).1.config.timerEndTime ≠ some k)
    ∧ (req.timerMinutes = some 0 →
      (handleUpdateConfig ws req now st cls).1.config.timerEndTime = none) := by
  constructor
  · intro hk hkpos
    constructor
    · simp [handleUpdateConfig, h, updateConfigBody, updateConfig, applyConfigPatch,
        hk, hkpos]
    · simp only [handleUpdateConfig, h, updateConfigBody, updateConfig,
        applyConfigPatch, hk]
      simp [hkpos]
      omega
  · intro hk
    simp [handleUpdateConfig, h, updateConfigBody, updateConfig, applyConfigPatch, hk]

/-- Witness for C7 with timerMinutes = 10 sent at time 1000: the stored
deadline is 1000 + 600000, not 600000 and not 10. -/
theorem updateConfig_timer_absolute_witness :
    wsAdmin.role = some "pronBOT" ∧ (0 : Int) ≤ 1000
    ∧ (({ timerMinutes := some 10 } : ConfigReq).timerMinutes = some 10 → 0 < (10 : Int) →
        (handleUpdateConfig wsAdmin { timerMinutes := some 10 } 1000 emptyStorage []).1.config.timerEndTime
            = some (1000 + 10 * 60000)
        ∧ (handleUpdateConfig wsAdmin { timerMinutes := some 10 } 1000 emptyStorage []).1.config.timerEndTime
            ≠ some 10)
    ∧ (({ timerMinutes := some 10 } : ConfigReq).timerMinutes = some 0 →
        (handleUpdateConfig wsAdmin { timerMinutes := some 10 } 1000 emptyStorage []).1.config.timerEndTime
            = none) :=
  ⟨by decide, by decide,
    (updateConfig_timer_absolute wsAdmin { timerMinutes := some 10 } 1000 emptyStorage []
      10 (by decide) (by decide)).1,
    (updateConfig_timer_absolute wsAdmin { timerMinutes := some 10 } 1000 emptyStorage []
      10 (by decide) (by decide)).2⟩

/-- C2. Authentication only verifies that the handle exists in the credential
table; the declared role is recorded unvalidated on the session, so any valid
handle that declares the admin role passes the admin guard of the admin-only
handlers (approve, reject, update_config, mute). -/
theorem declared_role_trusted (u r : String) (ws : Conn) (now : Int) (newId : String)
    (st : Storage) (cls : List Conn) (mid mu : String) (st2 : Storage)
    (cls2 : List Conn) (req : ConfigReq) (now2 dur : Int)
    (hcred : credentialOk u = true) :
    (handleAuth ws u r now newId st cls).1.role = some r
    ∧ (handleAuth ws u r now newId st cls).1.username = some u
    ∧ (∀ s ∈ (handleAuth ws u r now newId st cls).2.2, ∀ em, s.event ≠ SEvent.error em)
    ∧ (r = "pronBOT" →
        handleApproveMessage (handleAuth ws u r now newId st cls).1 mid st2 cls2
            = approveBody mid st2 cls2
        ∧ handleRejectMessage (handleAuth ws u r now newId st cls).1 mid st2 cls2
            = rejectBody mid st2 cls2
        ∧ handleUpdateConfig (handleAuth ws u r now newId st cls).1 req now2 st2 cls2
            = updateConfigBody req now2 st2 cls2
        ∧ handleMuteUser (handleAuth ws u r now newId st cls).1 mu dur now2 st2 cls2
            = muteBody mu dur now2 st2 cls2) := by
  have hconn : (handleAuth ws u r now newId st cls).1
      = { ws with userId := some newId, username := some u, role := some r } := by
    simp [handleAuth, hcred]
  refine ⟨by rw [hconn], by rw [hconn], ?_, ?_⟩
  · intro s hs em
    simp only [handleAuth, hcred, Bool.not_true, Bool.false_eq_true, if_false,
      List.mem_cons] at hs
    rcases hs with rfl | hs
    · simp
    · simp only [broadcastUsers, broadcastSends, List.mem_map] at hs
      obtain ⟨c, _, rfl⟩ := hs
      simp
  · intro hr
    rw [hconn, hr]
    refine ⟨?_, ?_, ?_, ?_⟩ <;>
      simp [handleApproveMessage, handleRejectMessage, handleUpdateConfig, handleMuteUser]

/-- Witness for C2: the regular handle `ad` declaring role `pronBOT` is
authenticated with that role and its session drives the admin handlers. -/
theorem declared_role_trusted_witness :
    credentialOk "ad" = true
    ∧ ((handleAuth { cid := 7 } "ad" "pronBOT" 0 "u9" emptyStorage []).1.role
          = some "pronBOT"
      ∧ (handleAuth { cid := 7 } "ad" "pronBOT" 0 "u9" emptyStorage []).1.username
          = some "ad"
      ∧ (∀ s ∈ (handleAuth { cid := 7 } "ad" "pronBOT" 0 "u9" emptyStorage []).2.2,
          ∀ em, s.event ≠ SEvent.error em)
      ∧ ("pronBOT" = "pronBOT" →
          handleApproveMessage
              (handleAuth { cid := 7 } "ad" "pronBOT" 0 "u9" emptyStorage []).1
              "m1" stPend [] = approveBody "m1" stPend []
          ∧ handleRejectMessage
              (handleAuth { cid := 7 } "ad" "pronBOT" 0 "u9" emptyStorage []).1
              "m1" stPend [] = rejectBody "m1" stPend []
          ∧ handleUpdateConfig
              (handleAuth { cid := 7 } "ad" "pronBOT" 0 "u9" emptyStorage []).1
              { timerMinutes := some 10 } 0 stPend []
              = updateConfigBody { timerMinutes := some 10 } 0 stPend []
          ∧ handleMuteUser
              (handleAuth { cid := 7 } "ad" "pronBOT" 0 "u9" emptyStorage []).1
              "shainez" 5 0 stPend [] = muteBody "shainez" 5 0 stPend [])) :=
  ⟨by decide,
    declared_role_trusted "ad" "pronBOT" { cid := 7 } 0 "u9" emptyStorage [] "m1"
      "shainez" stPend [] { timerMinutes := some 10 } 0 5 (by decide)⟩

/-- C4 counterexample: a send attempt with empty content while the chat is
disabled, from an authenticated non-admin sender, produces no event at all —
in particular no unicast error — so the claim's error clause fails as stated. -/
theorem send_disabled_error_cex :
    stOff.config.enabled = false ∧ wsUser.role ≠ some "pronBOT"
    ∧ handleSendMessage wsUser "" 0 "m1" stOff [] = (stOff, [])
    ∧ ¬ ∃ em, { dest := wsUser.cid, event := SEvent.error em }
        ∈ (handleSendMessage wsUser "" 0 "m1" stOff []).2 := by
  refine ⟨by decide, by decide, by decide, ?_⟩
  intro ⟨em, hm⟩
  rw [(by decide : handleSendMessage wsUser "" 0 "m1" stOff [] = (stOff, []))] at hm
  simp at hm

/-- C4 (amended). For a send_message from an authenticated sender whose
content passes the emptiness and length pre-checks, made while the chat is
disabled and the sender's role is not the admin role: the store is unchanged
(no message created) and exactly the disabled-chat error is unicast back. -/
theorem send_disabled_error (ws : Conn) (uname uid content : String) (now : Int)
    (newId : String) (st : Storage) (cls : List Conn)
    (hU : ws.username = some uname) (hUne : uname ≠ "")
    (hId : ws.userId = some uid) (hIdne : uid ≠ "")
    (hc0 : content ≠ "") (hc1 : (jsTrim content).length ≠ 0)
    (hLen : content.length ≤ 1000)
    (hEn : st.config.enabled = false) (hRole : ws.role ≠ some "pronBOT") :
    handleSendMessage ws content now newId st cls
      = (st, [{ dest := ws.cid, event := .error "Le chat est désactivé" }]) := by
  have hLen' : ¬ content.length > 1000 := by omega
  simp [handleSendMessage, jsStrFalsy, hU, hId, hUne, hIdne, hc0, hc1, hLen', hEn, hRole]

/-- Witness for C4 (amended) at content "hello" with the chat disabled. -/
theorem send_disabled_error_witness :
    wsUser.username = some "ad" ∧ "ad" ≠ "" ∧ wsUser.userId = some "u1" ∧ "u1" ≠ ""
    ∧ "hello" ≠ "" ∧ (jsTrim "hello").length ≠ 0 ∧ "hello".length ≤ 1000
    ∧ stOff.config.enabled = false ∧ wsUser.role ≠ some "pronBOT"
    ∧ handleSendMessage wsUser "hello" 0 "m1" stOff []
        = (stOff, [{ dest := wsUser.cid, event := .error "Le chat est désactivé" }]) :=
  ⟨by decide, by decide, by decide, by decide, by decide, by decide, by decide,
    by decide, by decide,
    send_disabled_error wsUser "ad" "u1" "hello" 0 "m1" stOff [] (by decide) (by decide)
      (by decide) (by decide) (by decide) (by decide) (by decide) (by decide) (by decide)⟩

/-- C6 counterexample: content that is empty after trimming is silently
dropped — the sender receives no unicast error event, contrary to the claim. -/
theorem send_invalid_no_error_cex :
    (jsTrim "   ").length = 0 ∧ wsUser.username = some "ad"
    ∧ handleSendMessage wsUser "   " 0 "m1" emptyStorage [] = (emptyStorage, [])
    ∧ ¬ ∃ em, { dest := wsUser.cid, event := SEvent.error em }
        ∈ (handleSendMessage wsUser "   " 0 "m1" emptyStorage []).2 := by
  refine ⟨by decide, by decide, by decide, ?_⟩
  intro ⟨em, hm⟩
  rw [(by decide : handleSendMessage wsUser "   " 0 "m1" emptyStorage []
        = (emptyStorage, []))] at hm
  simp at hm

/-- C6 (amended). A send_message whose content is empty, empty after trimming,
or longer than 1000 characters is silently ignored: the store is unchanged, no
message is created, and no event (in particular no error) is sent to anyone. -/
theorem send_invalid_silently_dropped (ws : Conn) (content : String) (now : Int)
    (newId : String) (st : Storage) (cls : List Conn)
    (h : content = "" ∨ (jsTrim content).length = 0 ∨ 1000 < content.length) :
    handleSendMessage ws content now newId st cls = (st, []) := by
  by_cases h1 : (jsStrFalsy ws.username || jsStrFalsy ws.userId) = true
  · simp [handleSendMessage, h1]
  · rcases h with hc | hc | hc
    · simp [handleSendMessage, h1, hc]
    · simp [handleSendMessage, h1, hc]
    · by_cases h2 : (content == "" || (jsTrim content).length == 0) = true
      · simp [handleSendMessage, h1, h2]
      · simp [handleSendMessage, h1, h2, hc]

/-- Witness for C6 (amended) at empty content. -/
theorem send_invalid_silently_dropped_witness :
    (("" : String) = "" ∨ (jsTrim ("" : String)).length = 0 ∨ 1000 < ("" : String).length)
    ∧ handleSendMessage wsUser "" 0 "m1" emptyStorage [] = (emptyStorage, []) :=
  ⟨Or.inl rfl,
    send_invalid_silently_dropped wsUser "" 0 "m1" emptyStorage [] (Or.inl rfl)⟩

set_option maxRecDepth 8000 in
/-- C5 counterexample: a 1001-character content made of the blocked letter `a`
contains a blocked word, yet the oversize pre-check drops it silently — no
unicast error event is returned, contrary to the claim. -/
theorem send_blocked_word_error_cex :
    containsBlockedWord stWordA longContent = true
    ∧ handleSendMessage wsUser longContent 0 "m1" stWordA [] = (stWordA, [])
    ∧ ¬ ∃ em, { dest := wsUser.cid, event := SEvent.error em }
        ∈ (handleSendMessage wsUser longContent 0 "m1" stWordA []).2 := by
  have hlen : longContent.length > 1000 := by decide
  have g1 : (jsStrFalsy wsUser.username || jsStrFalsy wsUser.userId) = false := by decide
  have g2 : (longContent == "" || (jsTrim longContent).length == 0) = false := by decide
  have hstep : handleSendMessage wsUser longContent 0 "m1" stWordA [] = (stWordA, []) := by
    simp [handleSendMessage, g1, g2, hlen]
  refine ⟨by decide, hstep, ?_⟩
  intro ⟨em, hm⟩
  rw [hstep] at hm
  simp at hm

/-- C5 (amended). For a send_message from an authenticated sender whose
content passes the emptiness and length pre-checks and contains a blocked
word: no message is created and exactly one error event is unicast back (the
blocked-word error, or the disabled-chat/muted error when one of those earlier
checks already rejects the attempt).  Moreover an empty blocked-word set makes
containsBlockedWord false on every text. -/
theorem send_blocked_word_error (ws : Conn) (uname uid content : String) (now : Int)
    (newId : String) (st : Storage) (cls : List Conn)
    (hU : ws.username = some uname) (hUne : uname ≠ "")
    (hId : ws.userId = some uid) (hIdne : uid ≠ "")
    (hc0 : content ≠ "") (hc1 : (jsTrim content).length ≠ 0)
    (hLen : content.length ≤ 1000)
    (hBW : containsBlockedWord st content = true) :
    ((handleSendMessage ws content now newId st cls).1.messages = st.messages
      ∧ ∃ em, (handleSendMessage ws content now newId st cls).2
          = [{ dest := ws.cid, event := SEvent.error em }])
    ∧ (∀ st2 : Storage, ∀ t : String, st2.blockedWords = [] →
        containsBlockedWord st2 t = false) := by
  have hLen' : ¬ content.length > 1000 := by omega
  constructor
  · by_cases hEn : (!st.config.enabled && !(ws.role == some "pronBOT")) = true
    · constructor
      · simp [handleSendMessage, jsStrFalsy, hU, hId, hUne, hIdne, hc0, hc1, hLen', hEn]
      · exact ⟨"Le chat est désactivé", by
          simp [handleSendMessage, jsStrFalsy, hU, hId, hUne, hIdne, hc0, hc1, hLen', hEn]⟩
    · by_cases hMut : (isUserMuted st uname now).1 = true
      · constructor
        · simp [handleSendMessage, jsStrFalsy, hU, hId, hUne, hIdne, hc0, hc1, hLen',
            hEn, hMut, (isUserMuted_proj st uname now).1]
        · exact ⟨"Vous êtes en sourdine", by
            simp [handleSendMessage, jsStrFalsy, hU, hId, hUne, hIdne, hc0, hc1, hLen',
              hEn, hMut]⟩
      · have hBW2 : containsBlockedWord (isUserMuted st uname now).2 content = true := by
          rw [containsBlockedWord_ext _ st _ (isUserMuted_proj st uname now).2.2.1]
          exact hBW
        constructor
        · simp [handleSendMessage, jsStrFalsy, hU, hId, hUne, hIdne, hc0, hc1, hLen',
            hEn, hMut, hBW2, (isUserMuted_proj st uname now).1]
        · exact ⟨"Le message contient des mots bloqués", by
            simp [handleSendMessage, jsStrFalsy, hU, hId, hUne, hIdne, hc0, hc1, hLen',
              hEn, hMut, hBW2]⟩
  · intro st2 t h2
    simp [containsBlockedWord, h2]

/-- Witness for C5 (amended): content "this is SPAM here" against the blocked
word "spam". -/
theorem send_blocked_word_error_witness :
    wsUser.username = some "ad" ∧ "ad" ≠ "" ∧ wsUser.userId = some "u1" ∧ "u1" ≠ ""
    ∧ "this is SPAM here" ≠ "" ∧ (jsTrim "this is SPAM here").length ≠ 0
    ∧ "this is SPAM here".length ≤ 1000
    ∧ containsBlockedWord stSpam "this is SPAM here" = true
    ∧ (((handleSendMessage wsUser "this is SPAM here" 0 "m1" stSpam []).1.messages
          = stSpam.messages
        ∧ ∃ em, (handleSendMessage wsUser "this is SPAM here" 0 "m1" stSpam []).2
            = [{ dest := wsUser.cid, event := SEvent.error em }])
      ∧ (∀ st2 : Storage, ∀ t : String, st2.blockedWords = [] →
          containsBlockedWord st2 t = false)) :=
  ⟨by decide, by decide, by decide, by decide, by decide, by decide, by decide, by decide,
    send_blocked_word_error wsUser "ad" "u1" "this is SPAM here" 0 "m1" stSpam []
      (by decide) (by decide) (by decide) (by decide) (by decide) (by decide) (by decide)
      (by decide)⟩

/-- A tick whose firing condition is false leaves the store untouched and
sends nothing. -/
theorem timerTick_noop (now : Int) (newId : String) (st : Storage) (cls : List Conn)
    (h : timerFires st.config now = false) : timerTick now newId st cls = (st, []) := by
  simp [timerTick, h]

/-- C8 counterexample: the tick's guard checks only that the timer is set and
past, not that the chat is still enabled — with `enabled` already false and a
past deadline, the tick still fires and appends a system message, contrary to
the claim's "only ... when enabled was still true" guard. -/
theorem timer_fires_when_disabled_cex :
    stTimer.config.enabled = false ∧ stTimer.config.timerEndTime = some 5
    ∧ (timerTick 10 "sys1" stTimer []).1.messages.length
        = stTimer.messages.length + 1 := by
  decide

/-- C8 (amended). Whenever the tick sees a set (non-zero) deadline that has
passed — regardless of whether the chat is still enabled — it fires: the chat
is disabled, the timer field is cleared, exactly one system event message is
appended, and that message plus the new config are broadcast; and because the
timer field is now cleared, every subsequent tick is a no-op, so the firing
happens exactly once. -/
theorem timer_fires_once (st : Storage) (now : Int) (newId : String)
    (cls : List Conn) (t : Int) (ht : st.config.timerEndTime = some t)
    (ht0 : t ≠ 0) (hpast : t ≤ now) :
    ∃ m : Message,
      (timerTick now newId st cls).1.messages = st.messages ++ [m]
      ∧ m.type = MsgType.event ∧ m.content = "⏰ Le chat est fermé, fin du timer."
      ∧ (timerTick now newId st cls).1.config.enabled = false
      ∧ (timerTick now newId st cls).1.config.timerEndTime = none
      ∧ (timerTick now newId st cls).2
          = broadcastSends cls (.message m)
            ++ broadcastSends cls (.configUpdate (timerTick now newId st cls).1.config)
      ∧ (∀ now2 newId2, timerTick now2 newId2 (timerTick now newId st cls).1 cls
          = ((timerTick now newId st cls).1, [])) := by
  have hfire : timerFires st.config now = true := by
    simp [timerFires, ht, ht0, hpast]
  refine ⟨⟨newId, "system", "Système", "pronBOT", "⏰ Le chat est fermé, fin du timer.",
      now, .approved, .event, none, none⟩, ?_, rfl, rfl, ?_, ?_, ?_, ?_⟩
  · simp [timerTick, hfire, updateConfig, addMessage]
  · simp [timerTick, hfire, updateConfig, applyConfigPatch, addMessage]
  · simp [timerTick, hfire, updateConfig, applyConfigPatch, addMessage]
  · simp [timerTick, hfire, updateConfig, applyConfigPatch, addMessage]
  · intro now2 newId2
    have hoff : (timerTick now newId st cls).1.config.timerEndTime = none := by
      simp [timerTick, hfire, updateConfig, applyConfigPatch, addMessage]
    have hfire2 : timerFires (timerTick now newId st cls).1.config now2 = false := by
      simp [timerFires, hoff]
    exact timerTick_noop now2 newId2 _ cls hfire2

/-- Witness for C8 (amended) on a store whose deadline 5 lies before tick
time 10. -/
theorem timer_fires_once_witness :
    stTimerOn.config.timerEndTime = some 5 ∧ (5 : Int) ≠ 0 ∧ (5 : Int) ≤ 10
    ∧ ∃ m : Message,
      (timerTick 10 "sys1" stTimerOn []).1.messages = stTimerOn.messages ++ [m]
      ∧ m.type = MsgType.event ∧ m.content = "⏰ Le chat est fermé, fin du timer."
      ∧ (timerTick 10 "sys1" stTimerOn []).1.config.enabled = false
      ∧ (timerTick 10 "sys1" stTimerOn []).1.config.timerEndTime = none
      ∧ (timerTick 10 "sys1" stTimerOn []).2
          = broadcastSends [] (.message m)
            ++ broadcastSends [] (.configUpdate (timerTick 10 "sys1" stTimerOn []).1.config)
      ∧ (∀ now2 newId2, timerTick now2 newId2 (timerTick 10 "sys1" stTimerOn []).1 []
          = ((timerTick 10 "sys1" stTimerOn []).1, [])) :=
  ⟨by decide, by decide, by decide,
    timer_fires_once stTimerOn 10 "sys1" [] 5 (by decide) (by decide) (by decide)⟩

/-- The cumulative effect on the mute map of removing every listed username. -/
theorem foldl_removeMutedUser_mutedUsers (l : List MutedUser) (st : Storage) :
    (l.foldl (fun s mu => removeMutedUser s mu.username) st).mutedUsers
      = st.mutedUsers.filter (fun x => l.all (fun e => !(x.username == e.username))) := by
  induction l generalizing st with
  | nil => simp
  | cons e rest ih =>
      rw [List.foldl_cons, ih, removeMutedUser_mutedUsers, List.filter_filter]
      apply List.filter_congr
      intro x _
      simp [Bool.and_comm]

/-- C9 counterexample: with two expired mute records, `isUserMuted` on one
handle deletes only that handle's record — the other expired record is still
in the store after the call, contrary to the claim's "after either call no
expired mute record remains in the store". -/
theorem mute_expiry_cex :
    (isUserMuted stTwoMutes "ad" 5).1 = false
    ∧ (isUserMuted stTwoMutes "ad" 5).2.mutedUsers
        = [{ username := "shainez", mutedUntil := 1 }]
    ∧ (1 : Int) ≤ 5 := by
  decide

/-- C9 (amended). Mute lookups are self-cleaning per lookup: for a handle
whose record has expired, `isUserMuted` answers false and deletes that
handle's record (no record for the handle survives the call); and
`getMutedUsers` returns exactly the records with expiry strictly after now
while deleting every expired record, so after it no expired record remains. -/
theorem mute_expiry_selfcleaning (st : Storage) (u : String) (now : Int)
    (mu : MutedUser)
    (hfind : st.mutedUsers.find? (fun x => x.username == u) = some mu)
    (hexp : mu.mutedUntil ≤ now) :
    (isUserMuted st u now).1 = false
    ∧ (∀ x ∈ (isUserMuted st u now).2.mutedUsers, x.username ≠ u)
    ∧ (∀ st2 : Storage, ∀ now2 : Int,
        (∀ x ∈ (getMutedUsers st2 now2).1, now2 < x.mutedUntil)
        ∧ (∀ x ∈ st2.mutedUsers, now2 < x.mutedUntil → x ∈ (getMutedUsers st2 now2).1)
        ∧ (∀ x ∈ (getMutedUsers st2 now2).2.mutedUsers, now2 < x.mutedUntil)) := by
  refine ⟨?_, ?_, ?_⟩
  · simp [isUserMuted, hfind, hexp]
  · intro x hx
    simp only [isUserMuted, hfind, hexp, if_pos] at hx
    rw [removeMutedUser_mutedUsers] at hx
    have := (List.mem_filter.mp hx).2
    simpa using this
  · intro st2 now2
    refine ⟨?_, ?_, ?_⟩
    · intro x hx
      exact by simpa using (List.mem_filter.mp hx).2
    · intro x hx hlt
      exact List.mem_filter.mpr ⟨hx, by simpa using hlt⟩
    · intro x hx
      simp only [getMutedUsers] at hx
      rw [foldl_removeMutedUser_mutedUsers] at hx
      obtain ⟨hxmem, hall⟩ := List.mem_filter.mp hx
      by_contra hnot
      have hxexp : x.mutedUntil ≤ now2 := by omega
      have hxexpmem : x ∈ st2.mutedUsers.filter (fun y => y.mutedUntil ≤ now2) :=
        List.mem_filter.mpr ⟨hxmem, by simpa using hxexp⟩
      have := List.all_eq_true.mp hall x hxexpmem
      simp at this

/-- Witness for C9 (amended) at a store whose record for `ad` expired at 1,
observed at time 5. -/
theorem mute_expiry_selfcleaning_witness :
    stTwoMutes.mutedUsers.find? (fun x => x.username == "ad")
        = some { username := "ad", mutedUntil := 1 }
    ∧ ({ username := "ad", mutedUntil := 1 } : MutedUser).mutedUntil ≤ 5
    ∧ ((isUserMuted stTwoMutes "ad" 5).1 = false
      ∧ (∀ x ∈ (isUserMuted stTwoMutes "ad" 5).2.mutedUsers, x.username ≠ "ad")
      ∧ (∀ st2 : Storage, ∀ now2 : Int,
          (∀ x ∈ (getMutedUsers st2 now2).1, now2 < x.mutedUntil)
          ∧ (∀ x ∈ st2.mutedUsers, now2 < x.mutedUntil → x ∈ (getMutedUsers st2 now2).1)
          ∧ (∀ x ∈ (getMutedUsers st2 now2).2.mutedUsers, now2 < x.mutedUntil))) :=
  ⟨by decide, by decide,
    mute_expiry_selfcleaning stTwoMutes "ad" 5 { username := "ad", mutedUntil := 1 }
      (by decide) (by decide)⟩

theorem removeUserTyping_messages (st : Storage) (u : String) :
    (removeUserTyping st u).messages = st.messages := rfl

theorem broadcastTypingUsers_fst_messages (st : Storage) (cls : List Conn) (now : Int) :
    (broadcastTypingUsers st cls now).1.messages = st.messages := rfl

/-- C3. Direct-mode send for an authenticated, valid, non-admin sender: with
directChatEnabled the created message is approved and broadcast to every open
connection as a `message` event, with no `pending_message` anywhere; without
it the created message is pending, echoed to the sender as `pending_message`,
pushed as `pending_message` to exactly the open admin-role connections besides
the sender, and no `message` event is emitted. -/
theorem direct_mode_send (ws : Conn) (uname uid content : String) (now : Int)
    (newId : String) (st : Storage) (cls : List Conn)
    (hU : ws.username = some uname) (hUne : uname ≠ "")
    (hId : ws.userId = some uid) (hIdne : uid ≠ "")
    (hc0 : content ≠ "") (hc1 : (jsTrim content).length ≠ 0)
    (hLen : content.length ≤ 1000)
    (hEn : st.config.enabled = true)
    (hMut : (isUserMuted st uname now).1 = false)
    (hBW : containsBlockedWord st content = false)
    (hRole : ws.role ≠ some "pronBOT") :
    (st.config.directChatEnabled = true →
      ∃ m : Message,
        (handleSendMessage ws content now newId st cls).1.messages
            = st.messages ++ [m]
        ∧ m.status = MsgStatus.approved
        ∧ (∀ c ∈ cls, c.isOpen = true →
            { dest := c.cid, event := SEvent.message m }
              ∈ (handleSendMessage ws content now newId st cls).2)
        ∧ (∀ s ∈ (handleSendMessage ws content now newId st cls).2,
            ∀ m2, s.event ≠ SEvent.pendingMessage m2))
    ∧ (st.config.directChatEnabled = false →
      ∃ m : Message,
        (handleSendMessage ws content now newId st cls).1.messages
            = st.messages ++ [m]
        ∧ m.status = MsgStatus.pending
        ∧ { dest := ws.cid, event := SEvent.pendingMessage m }
            ∈ (handleSendMessage ws content now newId st cls).2
        ∧ (∀ c ∈ cls, c.isOpen = true → c.role = some "pronBOT" →
            { dest := c.cid, event := SEvent.pendingMessage m }
              ∈ (handleSendMessage ws content now newId st cls).2)
        ∧ (∀ s ∈ (handleSendMessage ws content now newId st cls).2,
            (∃ m2, s.event = SEvent.pendingMessage m2) →
            s.dest = ws.cid ∨ ∃ c ∈ cls, c.role = some "pronBOT" ∧ s.dest = c.cid)
        ∧ (∀ s ∈ (handleSendMessage ws content now newId st cls).2,
            ∀ m2, s.event ≠ SEvent.message m2)) := by
  have hA : (ws.role == some "pronBOT") = false :=
    beq_eq_false_iff_ne.mpr hRole
  have hgetD : ws.username.getD "" = uname := by rw [hU]; rfl
  have hgetDid : ws.userId.getD "" = uid := by rw [hId]; rfl
  have hcfg := (isUserMuted_proj st uname now).2.1
  have hmsgs := (isUserMuted_proj st uname now).1
  have g1 : (jsStrFalsy ws.username || jsStrFalsy ws.userId) = false := by
    simp [jsStrFalsy, hU, hId, hUne, hIdne]
  have g2 : (content == "" || (jsTrim content).length == 0) = false := by
    simp [hc0, hc1]
  have g3 : ¬ content.length > 1000 := by omega
  have g4 : (!st.config.enabled && !(ws.role == some "pronBOT")) = false := by
    simp [hEn]
  have hBW2 : containsBlockedWord (isUserMuted st uname now).2 content = false := by
    rw [containsBlockedWord_ext _ st _ (isUserMuted_proj st uname now).2.2.1]
    exact hBW
  constructor
  · intro hd
    have hauto : (ws.role == some "pronBOT"
        || (isUserMuted st uname now).2.config.directChatEnabled) = true := by
      rw [hA, hcfg, hd]; rfl
    have hres : handleSendMessage ws content now newId st cls
        = ((broadcastTypingUsers (removeUserTyping (addMessage
              (isUserMuted st uname now).2
              ⟨newId, uid, uname, ws.role.getD "", jsTrim content, now,
                MsgStatus.approved, MsgType.normal, none, none⟩) uname) cls now).1,
            broadcastSends cls (SEvent.message
              ⟨newId, uid, uname, ws.role.getD "", jsTrim content, now,
                MsgStatus.approved, MsgType.normal, none, none⟩)
            ++ (broadcastTypingUsers (removeUserTyping (addMessage
                  (isUserMuted st uname now).2
                  ⟨newId, uid, uname, ws.role.getD "", jsTrim content, now,
                    MsgStatus.approved, MsgType.normal, none, none⟩) uname) cls now).2) := by
      simp only [handleSendMessage, g1, g2, g4, hgetD, hgetDid, hMut, hBW2, hauto,
        Bool.false_eq_true, if_false, if_true, gt_iff_lt]
      rw [if_neg (by omega : ¬ 1000 < content.length)]
    refine ⟨⟨newId, uid, uname, ws.role.getD "", jsTrim content, now,
        MsgStatus.approved, MsgType.normal, none, none⟩, ?_, rfl, ?_, ?_⟩
    · rw [hres]
      simp [broadcastTypingUsers_fst_messages, removeUserTyping_messages, addMessage, hmsgs]
    · intro c hc hopen
      rw [hres]
      refine List.mem_append_left _ ?_
      simp only [broadcastSends, List.mem_map]
      exact ⟨c, List.mem_filter.mpr ⟨hc, by simp [hopen]⟩, rfl⟩
    · intro s hs m2
      rw [hres] at hs
      rcases List.mem_append.mp hs with hs1 | hs2
      · simp only [broadcastSends, List.mem_map] at hs1
        obtain ⟨c, _, rfl⟩ := hs1
        simp
      · simp only [broadcastTypingUsers, broadcastSends, List.mem_map] at hs2
        obtain ⟨c, _, rfl⟩ := hs2
        simp
  · intro hd
    have hauto : (ws.role == some "pronBOT"
        || (isUserMuted st uname now).2.config.directChatEnabled) = false := by
      rw [hA, hcfg, hd]; rfl
    have hres : handleSendMessage ws content now newId st cls
        = ((broadcastTypingUsers (removeUserTyping (addMessage
              (isUserMuted st uname now).2
              ⟨newId, uid, uname, ws.role.getD "", jsTrim content, now,
                MsgStatus.pending, MsgType.normal, none, none⟩) uname) cls now).1,
            ({ dest := ws.cid, event := (SEvent.pendingMessage
                ⟨newId, uid, uname, ws.role.getD "", jsTrim content, now,
                  MsgStatus.pending, MsgType.normal, none, none⟩) } ::
              (cls.filter (fun c => c.isOpen && c.role == some "pronBOT")).map
                (fun c => { dest := c.cid, event := (SEvent.pendingMessage
                  ⟨newId, uid, uname, ws.role.getD "", jsTrim content, now,
                    MsgStatus.pending, MsgType.normal, none, none⟩) }))
            ++ (broadcastTypingUsers (removeUserTyping (addMessage
                  (isUserMuted st uname now).2
                  ⟨newId, uid, uname, ws.role.getD "", jsTrim content, now,
                    MsgStatus.pending, MsgType.normal, none, none⟩) uname) cls now).2) := by
      simp only [handleSendMessage, g1, g2, g4, hgetD, hgetDid, hMut, hBW2, hauto,
        Bool.false_eq_true, if_false, if_true, gt_iff_lt]
      rw [if_neg (by omega : ¬ 1000 < content.length)]
    refine ⟨⟨newId, uid, uname, ws.role.getD "", jsTrim content, now,
        MsgStatus.pending, MsgType.normal, none, none⟩, ?_, rfl, ?_, ?_, ?_, ?_⟩
    · rw [hres]
      simp [broadcastTypingUsers_fst_messages, removeUserTyping_messages, addMessage, hmsgs]
    · rw [hres]
      exact List.mem_append_left _ (List.mem_cons_self _ _)
    · intro c hc hopen hrole
      rw [hres]
      refine List.mem_append_left _ (List.mem_cons_of_mem _ ?_)
      simp only [List.mem_map]
      exact ⟨c, List.mem_filter.mpr ⟨hc, by simp [hopen, hrole]⟩, rfl⟩
    · intro s hs hpend
      rw [hres] at hs
      rcases List.mem_append.mp hs with hs1 | hs2
      · rcases List.mem_cons.mp hs1 with rfl | hs1'
        · exact Or.inl rfl
        · simp only [List.mem_map] at hs1'
          obtain ⟨c, hcf, rfl⟩ := hs1'
          obtain ⟨hcmem, hcond⟩ := List.mem_filter.mp hcf
          refine Or.inr ⟨c, hcmem, ?_, rfl⟩
          have := (Bool.and_eq_true _ _).mp hcond
          exact beq_iff_eq.mp this.2
      · simp only [broadcastTypingUsers, broadcastSends, List.mem_map] at hs2
        obtain ⟨c, _, rfl⟩ := hs2
        obtain ⟨m2, hm2⟩ := hpend
        simp at hm2
    · intro s hs m2
      rw [hres] at hs
      rcases List.mem_append.mp hs with hs1 | hs2
      · rcases List.mem_cons.mp hs1 with rfl | hs1'
        · simp
        · simp only [List.mem_map] at hs1'
          obtain ⟨c, _, rfl⟩ := hs1'
          simp
      · simp only [broadcastTypingUsers, broadcastSends, List.mem_map] at hs2
        obtain ⟨c, _, rfl⟩ := hs2
        simp

/-- Witness for C3: the handle `ad` sends "hello" on a direct-mode store. -/
theorem direct_mode_send_witness :
    wsUser.username = some "ad" ∧ "ad" ≠ "" ∧ wsUser.userId = some "u1" ∧ "u1" ≠ ""
    ∧ "hello" ≠ "" ∧ (jsTrim "hello").length ≠ 0 ∧ "hello".length ≤ 1000
    ∧ stDirect.config.enabled = true
    ∧ (isUserMuted stDirect "ad" 0).1 = false
    ∧ containsBlockedWord stDirect "hello" = false
    ∧ wsUser.role ≠ some "pronBOT"
    ∧ ((stDirect.config.directChatEnabled = true →
        ∃ m : Message,
          (handleSendMessage wsUser "hello" 0 "m1" stDirect [wsUser]).1.messages
              = stDirect.messages ++ [m]
          ∧ m.status = MsgStatus.approved
          ∧ (∀ c ∈ [wsUser], c.isOpen = true →
              { dest := c.cid, event := SEvent.message m }
                ∈ (handleSendMessage wsUser "hello" 0 "m1" stDirect [wsUser]).2)
          ∧ (∀ s ∈ (handleSendMessage wsUser "hello" 0 "m1" stDirect [wsUser]).2,
              ∀ m2, s.event ≠ SEvent.pendingMessage m2))
      ∧ (stDirect.config.directChatEnabled = false →
        ∃ m : Message,
          (handleSendMessage wsUser "hello" 0 "m1" stDirect [wsUser]).1.messages
              = stDirect.messages ++ [m]
          ∧ m.status = MsgStatus.pending
          ∧ { dest := wsUser.cid, event := SEvent.pendingMessage m }
              ∈ (handleSendMessage wsUser "hello" 0 "m1" stDirect [wsUser]).2
          ∧ (∀ c ∈ [wsUser], c.isOpen = true → c.role = some "pronBOT" →
              { dest := c.cid, event := SEvent.pendingMessage m }
                ∈ (handleSendMessage wsUser "hello" 0 "m1" stDirect [wsUser]).2)
          ∧ (∀ s ∈ (handleSendMessage wsUser "hello" 0 "m1" stDirect [wsUser]).2,
              (∃ m2, s.event = SEvent.pendingMessage m2) →
              s.dest = wsUser.cid
                ∨ ∃ c ∈ [wsUser], c.role = some "pronBOT" ∧ s.dest = c.cid)
          ∧ (∀ s ∈ (handleSendMessage wsUser "hello" 0 "m1" stDirect [wsUser]).2,
              ∀ m2, s.event ≠ SEvent.message m2))) :=
  ⟨by decide, by decide, by decide, by decide, by decide, by decide, by decide,
    by decide, by decide, by decide, by decide,
    direct_mode_send wsUser "ad" "u1" "hello" 0 "m1" stDirect [wsUser]
      (by decide) (by decide) (by decide) (by decide) (by decide) (by decide)
      (by decide) (by decide) (by decide) (by decide) (by decide)⟩

end ChatVC
